import Mathlib

/-!
Shallow embedding of the dual-storage consistency engine of `peep-git`
(`backend/models/storage_manager.py` and `backend/models/database.py`).

The Ledger Store is SQLite table `git_activities`; the Cache Document is the
JSON file `records.json`.  Rows and JSON activity entries share one record
shape, embedded as `Activity`.  The database state is the list of rows in
insertion order together with the next AUTOINCREMENT id.  File-system faults
and SQLite faults are modelled as explicit environment parameters.
-/

namespace PeepGit

/-- One `git_activities` row / one JSON activity entry
(`database.py` CREATE TABLE, lines 42-58). -/
structure Activity where
  id : Int
  activity_type : String
  timestamp : String
  repo_path : String
  branch_name : String
  commit_hash : String
  commit_message : String
  author_name : String
  author_email : String
  files_changed : Int
  insertions : Int
  deletions : Int
deriving DecidableEq, Repr

/-- The `statistics` object of the Cache Document
(`storage_manager.py` lines 185-190). -/
structure Statistics where
  total_commits : Nat
  total_pushes : Nat
  most_active_repo : String
  most_active_branch : String
deriving DecidableEq, Repr

/-- The Cache Document (`records.json`): the JSON object
`\x7bversion, last_updated, activities, statistics\x7d`. -/
structure CacheDocument where
  version : String
  last_updated : String
  activities : List Activity
  statistics : Statistics
deriving DecidableEq, Repr

/-- The Ledger Store state: `git_activities` rows in insertion order plus the
next AUTOINCREMENT rowid. -/
structure LedgerDB where
  rows : List Activity
  next_rowid : Int
deriving DecidableEq, Repr

/-- Python dict key order: first-occurrence order of the keys, as built by
`repo_counts[repo] = repo_counts.get(repo, 0) + 1` over the activity list
(`storage_manager.py` lines 170-173).  `seen` accumulates keys already kept. -/
def dedupFirstAux (seen : List String) : List String → List String
  | [] => []
  | x :: xs =>
    if x ∈ seen then dedupFirstAux seen xs
    else x :: dedupFirstAux (x :: seen) xs

/-- Keys of a Python counting dict, in first-occurrence order. -/
def dedupFirst (l : List String) : List String := dedupFirstAux [] l

/-- Count of a key in the list (the dict's stored count). -/
def keyCount (l : List String) (k : String) : Nat := l.countP (fun s => s == k)

/-- Python `max(keys, key=...)`: the first element attaining the maximal
count (Python `max` keeps the earliest maximum). -/
def pyMaxByCount (counts : String → Nat) : List String → Option String
  | [] => none
  | k :: ks => some (ks.foldl (fun best x => if counts best < counts x then x else best) k)

/-- `StorageManager._calculate_statistics` (`storage_manager.py` lines 156-190):
commit/push counts over the given activities, plus the most frequent
`repo_path` and `branch_name` (empty string when there are no activities). -/
def calculate_statistics (activities : List Activity) : Statistics :=
  let repoKeys := dedupFirst (activities.map (fun a => a.repo_path))
  let branchKeys := dedupFirst (activities.map (fun a => a.branch_name))
  { total_commits := activities.countP (fun a => a.activity_type == "commit")
    total_pushes := activities.countP (fun a => a.activity_type == "push")
    most_active_repo :=
      (pyMaxByCount (keyCount (activities.map (fun a => a.repo_path))) repoKeys).getD ""
    most_active_branch :=
      (pyMaxByCount (keyCount (activities.map (fun a => a.branch_name))) branchKeys).getD "" }

/-- The initial Cache Document written by `StorageManager._init_json_file`
(`storage_manager.py` lines 46-60); `stamp` is `datetime.now().isoformat()`. -/
def init_json_data (stamp : String) : CacheDocument :=
  { version := "1.0", last_updated := stamp, activities := [],
    statistics := { total_commits := 0, total_pushes := 0,
                    most_active_repo := "", most_active_branch := "" } }

/-- `StorageManager._update_json_cache` (`storage_manager.py` lines 126-154),
successful path: prepend the new activity, truncate to 1000 entries when over
the cap, stamp `last_updated`, recompute `statistics` over the truncated list.
A failure anywhere in the method is caught inside it (lines 153-154: printed,
not re-raised); the failing paths and their effect on the file are modelled
by `CacheUpdateFault` in `update_json_cache_file` below. -/
def update_json_cache (data : CacheDocument) (activity : Activity) (stamp : String) :
    CacheDocument :=
  let acts0 := activity :: data.activities
  let acts := if acts0.length > 1000 then acts0.take 1000 else acts0
  { data with activities := acts, last_updated := stamp,
              statistics := calculate_statistics acts }

/-- Lexicographic strict order on character lists by codepoint, which equals
bytewise order on the UTF-8 encodings. -/
def charListLt : List Char → List Char → Bool
  | _, [] => false
  | [], _ :: _ => true
  | a :: as, b :: bs =>
    if a.toNat < b.toNat then true
    else if b.toNat < a.toNat then false
    else charListLt as bs

/-- SQLite BINARY collation on two TEXT values: bytewise (memcmp) comparison
of the UTF-8 encodings. -/
def sqliteStrLt (x y : String) : Bool := charListLt x.toList y.toList

/-- Insert into a list sorted by `timestamp` descending (stable: an element
goes before the ties already present, matching a stable ORDER BY). -/
def insertTsDesc (a : Activity) : List Activity → List Activity
  | [] => [a]
  | b :: bs =>
    if sqliteStrLt a.timestamp b.timestamp then b :: insertTsDesc a bs
    else a :: b :: bs

/-- Sort by `timestamp` descending (model of `ORDER BY timestamp DESC`). -/
def sortTsDesc : List Activity → List Activity
  | [] => []
  | a :: rest => insertTsDesc a (sortTsDesc rest)

/-- `Database.get_all_activities` (`database.py` lines 395-408):
`SELECT * FROM git_activities ORDER BY timestamp DESC`, no LIMIT. -/
def get_all_activities (db : LedgerDB) : List Activity := sortTsDesc db.rows

/-- `Database.insert_activity` (`database.py` lines 126-160): append a row
with the AUTOINCREMENT-assigned id and return `cursor.lastrowid`. -/
def insert_activity (db : LedgerDB) (a : Activity) : LedgerDB × Int :=
  ({ rows := db.rows ++ [{ a with id := db.next_rowid }],
     next_rowid := db.next_rowid + 1 },
   db.next_rowid)

/-- `Database.delete_old_activities` (`database.py` lines 410-429):
`DELETE FROM git_activities WHERE timestamp < datetime('now', '-N days')`.
`cutoff` is the TEXT value of `datetime('now', '-N days')`, which SQLite
renders as `YYYY-MM-DD HH:MM:SS` (UTC, space separator); the `timestamp`
column holds the caller-supplied string unchanged (DATETIME column with
NUMERIC affinity stores a non-numeric string as TEXT), so the WHERE clause
is a bytewise string comparison.  Returns the new state and `cursor.rowcount`. -/
def delete_old_activities (db : LedgerDB) (cutoff : String) : LedgerDB × Nat :=
  ({ db with rows := db.rows.filter (fun a => ¬ sqliteStrLt a.timestamp cutoff) },
   db.rows.countP (fun a => sqliteStrLt a.timestamp cutoff))

/-- `StorageManager.sync_from_db_to_json` (`storage_manager.py` lines 192-220),
successful path: read every row from the Ledger Store, rebuild the whole
document, recompute `statistics` over that full list, and overwrite the file.
`stamp` is `datetime.now().isoformat()`. -/
def sync_from_db_to_json (db : LedgerDB) (stamp : String) : CacheDocument :=
  let activities := get_all_activities db
  { version := "1.0", last_updated := stamp, activities := activities,
    statistics := calculate_statistics activities }

/-- File-level effect of one reconciliation cycle: `_write_json` replaces the
whole file, so the resulting Cache Document is `sync_from_db_to_json db stamp`
whatever `prior` content the file held. -/
def run_sync (db : LedgerDB) (_prior : CacheDocument) (stamp : String) : CacheDocument :=
  sync_from_db_to_json db stamp

/-- Outcome of the SQLite insert inside `save_activity`: the call either
raises (store unavailable / write failure) or returns `cursor.lastrowid`. -/
inductive InsertOutcome where
  | raises
  | assigns (id : Int)
deriving DecidableEq, Repr

/-- On-disk state of the Cache Document file: either it parses to a document,
or it is unparseable (torn/truncated by a fault during a write). -/
inductive CacheFile where
  | parseable (d : CacheDocument)
  | corrupt
deriving DecidableEq, Repr

/-- `StorageManager._read_json` (`storage_manager.py` lines 62-84): parse the
file; `FileNotFoundError` and `JSONDecodeError` (a missing, torn or truncated
file) are caught and yield the default empty document, whose `last_updated`
is the `datetime.now().isoformat()` value `now`. -/
def read_json (file : CacheFile) (now : String) : CacheDocument :=
  match file with
  | .parseable d => d
  | .corrupt => init_json_data now

/-- Where a failure inside `_update_json_cache` strikes, and so what it does
to the file.  `beforeWrite` is any failure before `_write_json` opens the
file — a `FileLock` acquisition timeout (`storage_manager.py` line 93), or an
exception while reading — which leaves the file as it was.  `duringWrite` is
a fault after line 94's `open(self.json_path, 'w')` has truncated the file
and before `json.dump` completes, which leaves the file torn/truncated
(unparseable); a fault after the content is fully flushed is
indistinguishable from success and is modelled as such. -/
inductive CacheUpdateFault where
  | beforeWrite
  | duringWrite
deriving DecidableEq, Repr

/-- File-level effect of one `_update_json_cache` call: read the current
file (normalizing a missing/corrupt file to the empty default), apply the
in-memory update, and write the whole file back, subject to the given fault. -/
def update_json_cache_file (file : CacheFile) (activity : Activity)
    (fault : Option CacheUpdateFault) (stamp : String) : CacheFile :=
  match fault with
  | some .beforeWrite => file
  | some .duringWrite => .corrupt
  | none => .parseable (update_json_cache (read_json file stamp) activity stamp)

/-- `StorageManager.save_activity` (`storage_manager.py` lines 97-124).
Returns `(return value, Cache Document file after the call)`.
On an insert exception, or on `activity_id <= 0`, the `except` block returns
`-1` and `_update_json_cache` is never reached, so the file is untouched.
Otherwise the id is written into `activity_data` and the cache is updated;
`fault` models a failure inside `_update_json_cache`, which that method
catches itself (prints, does not re-raise), so `save_activity` still returns
the id whatever the fault did to the file. -/
def save_activity (outcome : InsertOutcome) (fault : Option CacheUpdateFault)
    (prior : CacheFile) (activity_data : Activity) (stamp : String) :
    Int × CacheFile :=
  match outcome with
  | .raises => (-1, prior)
  | .assigns id =>
    if id ≤ 0 then (-1, prior)
    else (id, update_json_cache_file prior { activity_data with id := id } fault stamp)

/-- One `save_activity` call's environment and arguments. -/
structure SaveOp where
  outcome : InsertOutcome
  cache_fault : Option CacheUpdateFault
  data : Activity
  stamp : String
deriving DecidableEq, Repr

/-- The insert step of the op succeeded with a positive rowid. -/
def opSucceeds (op : SaveOp) : Prop :=
  ∃ id : Int, op.outcome = .assigns id ∧ 0 < id

/-- The activity as stored in the cache by a successful op
(`activity_data['id'] = activity_id`, line 117). -/
def recordedOf (op : SaveOp) : Activity :=
  match op.outcome with
  | .raises => op.data
  | .assigns id => { op.data with id := id }

/-- Cache Document file state after a sequence of `save_activity` calls. -/
def runSaves (file : CacheFile) : List SaveOp → CacheFile
  | [] => file
  | op :: ops =>
    runSaves (save_activity op.outcome op.cache_fault file op.data op.stamp).2 ops

/-- `StorageManager.get_activities_from_json` (`storage_manager.py` lines
222-238).  `limit` defaults to `None`; the guard is Python
`if limit and len(activities) > limit`, so `None` and `0` are both falsy and
leave the list whole.  `pySliceTo` is Python `activities[:limit]`. -/
def pySliceTo (l : List Activity) (n : Int) : List Activity :=
  if 0 ≤ n then l.take n.toNat else l.take (l.length - (-n).toNat)

/-- See `pySliceTo`; the body of `get_activities_from_json`. -/
def get_activities_from_json (doc : CacheDocument) (limit : Option Int) : List Activity :=
  let activities := doc.activities
  match limit with
  | none => activities
  | some n =>
    if n ≠ 0 ∧ (activities.length : Int) > n then pySliceTo activities n
    else activities

/-- `StorageManager.get_statistics_from_json` (`storage_manager.py` lines
240-248). -/
def get_statistics_from_json (doc : CacheDocument) : Statistics := doc.statistics

/-! Event traces of the Cache Document writers, for the locking discipline.
Each constructor marks one observable action on the shared cache file or its
lock (`FileLock(self.lock_path, timeout=10)`). -/

/-- Observable actions on the Cache Document file and its lock. -/
inductive CacheEvent where
  | acquireLock
  | releaseLock
  | readDoc
  | writeDoc
deriving DecidableEq, Repr

/-- Trace of `StorageManager._read_json` (`storage_manager.py` lines 62-84):
a bare `open(self.json_path, 'r')` and parse, with no lock anywhere. -/
def read_json_events : List CacheEvent := [.readDoc]

/-- Trace of `StorageManager._write_json` (`storage_manager.py` lines 86-95):
`with FileLock(self.lock_path, timeout=10):` around the file write, released
on exit of the `with` block. -/
def write_json_events : List CacheEvent := [.acquireLock, .writeDoc, .releaseLock]

/-- Trace of `StorageManager._update_json_cache` (lines 126-154), successful
path: `self._read_json()` first (line 135), in-memory modification, then
`self._write_json(data)` (line 151). -/
def update_json_cache_events : List CacheEvent := read_json_events ++ write_json_events

/-- Trace of `StorageManager.sync_from_db_to_json` (lines 192-220), successful
path: the Ledger read (`db.get_all_activities()`) touches only SQLite, not the
cache file; the only cache-file action is `self._write_json(data)` (line 214). -/
def sync_from_db_to_json_events : List CacheEvent := write_json_events

/-- Every `readDoc`/`writeDoc` in the trace happens while the lock is held
(`depth` counts currently-held acquisitions). -/
def accessesUnderLockFrom (depth : Nat) : List CacheEvent → Bool
  | [] => true
  | .acquireLock :: rest => accessesUnderLockFrom (depth + 1) rest
  | .releaseLock :: rest => accessesUnderLockFrom (depth - 1) rest
  | .readDoc :: rest => decide (0 < depth) && accessesUnderLockFrom depth rest
  | .writeDoc :: rest => decide (0 < depth) && accessesUnderLockFrom depth rest

/-- The whole read-modify-write sequence runs inside the lock. -/
def accessesUnderLock (tr : List CacheEvent) : Bool := accessesUnderLockFrom 0 tr

/-- Like `accessesUnderLock` but checking only the document writes. -/
def writesUnderLockFrom (depth : Nat) : List CacheEvent → Bool
  | [] => true
  | .acquireLock :: rest => writesUnderLockFrom (depth + 1) rest
  | .releaseLock :: rest => writesUnderLockFrom (depth - 1) rest
  | .readDoc :: rest => writesUnderLockFrom depth rest
  | .writeDoc :: rest => decide (0 < depth) && writesUnderLockFrom depth rest

/-- Every document write in the trace happens while the lock is held. -/
def writesUnderLock (tr : List CacheEvent) : Bool := writesUnderLockFrom 0 tr

/-- Like `accessesUnderLock` but checking only the document reads. -/
def readsUnderLockFrom (depth : Nat) : List CacheEvent → Bool
  | [] => true
  | .acquireLock :: rest => readsUnderLockFrom (depth + 1) rest
  | .releaseLock :: rest => readsUnderLockFrom (depth - 1) rest
  | .readDoc :: rest => decide (0 < depth) && readsUnderLockFrom depth rest
  | .writeDoc :: rest => readsUnderLockFrom depth rest

/-- Every document read in the trace happens while the lock is held. -/
def readsUnderLock (tr : List CacheEvent) : Bool := readsUnderLockFrom 0 tr

/-! Calendar moments, to state "the timestamp is not in the future" about the
two datetime string formats in play: the caller-supplied ISO-8601 form
`YYYY-MM-DDTHH:MM:SS` (Python `datetime.now().isoformat()`, `T` separator)
and SQLite's `datetime('now', ...)` form `YYYY-MM-DD HH:MM:SS` (space
separator). -/

/-- A calendar moment at second granularity. -/
structure Moment where
  year : Nat
  month : Nat
  day : Nat
  hour : Nat
  minute : Nat
  second : Nat
deriving DecidableEq, Repr

/-- Chronological order on moments (lexicographic on the fields). -/
def momentLe (a b : Moment) : Bool :=
  if a.year ≠ b.year then decide (a.year < b.year)
  else if a.month ≠ b.month then decide (a.month < b.month)
  else if a.day ≠ b.day then decide (a.day < b.day)
  else if a.hour ≠ b.hour then decide (a.hour < b.hour)
  else if a.minute ≠ b.minute then decide (a.minute < b.minute)
  else decide (a.second ≤ b.second)

/-- Decimal digit value of a character, if it is a digit. -/
def digitVal (c : Char) : Option Nat :=
  if c.isDigit then some (c.toNat - 48) else none

/-- Parse a 19-character datetime string `YYYY-MM-DD?HH:MM:SS` whose
date/time separator must be `sep` (`T` for ISO-8601, space for SQLite). -/
def parseStamp (sep : Char) (s : String) : Option Moment :=
  match s.toList with
  | [y1, y2, y3, y4, '-', m1, m2, '-', d1, d2, c, h1, h2, ':', n1, n2, ':', s1, s2] =>
    if c = sep then
      match digitVal y1, digitVal y2, digitVal y3, digitVal y4,
            digitVal m1, digitVal m2, digitVal d1, digitVal d2,
            digitVal h1, digitVal h2, digitVal n1, digitVal n2,
            digitVal s1, digitVal s2 with
      | some a1, some a2, some a3, some a4, some b1, some b2, some c1, some c2,
        some e1, some e2, some f1, some f2, some g1, some g2 =>
        some { year := ((a1 * 10 + a2) * 10 + a3) * 10 + a4,
               month := b1 * 10 + b2, day := c1 * 10 + c2,
               hour := e1 * 10 + e2, minute := f1 * 10 + f2,
               second := g1 * 10 + g2 }
      | _, _, _, _, _, _, _, _, _, _, _, _, _, _ => none
    else none
  | _ => none

/-- The ISO-8601 timestamp `iso` denotes a moment no later than the moment of
the SQLite-format string `now` (i.e. the timestamp is not in the future). -/
def isoNotAfterSqlite (iso now : String) : Bool :=
  match parseStamp 'T' iso, parseStamp ' ' now with
  | some a, some b => momentLe a b
  | _, _ => false

/-- The list is ordered by `timestamp` descending: no later entry has a
strictly larger timestamp under SQLite's BINARY collation. -/
def tsDescOrdered (l : List Activity) : Prop :=
  l.Pairwise (fun a b => sqliteStrLt a.timestamp b.timestamp = false)

/-! Concrete fixtures for witnesses and counterexamples.  The commit matches
the end-to-end scenario of the spec (files_changed=3, insertions=10,
deletions=2) with the ISO-8601 timestamp shape `datetime.now().isoformat()`
produces (seconds precision shown). -/

/-- A concrete commit activity with a caller-supplied ISO-8601 timestamp. -/
def sampleCommit : Activity :=
  { id := 0, activity_type := "commit", timestamp := "2026-10-12T06:00:00",
    repo_path := "/home/dev/proj", branch_name := "main", commit_hash := "abc123",
    commit_message := "msg", author_name := "dev", author_email := "dev@x",
    files_changed := 3, insertions := 10, deletions := 2 }

/-- A concrete push activity. -/
def samplePush : Activity :=
  { id := 0, activity_type := "push", timestamp := "2026-10-12T06:30:00",
    repo_path := "/home/dev/proj", branch_name := "dev", commit_hash := "def456",
    commit_message := "", author_name := "dev", author_email := "dev@x",
    files_changed := 0, insertions := 0, deletions := 0 }

/-- A Ledger Store holding 1001 records, one over the cache cap. -/
def bigLedger : LedgerDB := { rows := List.replicate 1001 sampleCommit, next_rowid := 1002 }

/-- A Cache Document holding two activities, for read-path witnesses. -/
def twoActivityDoc : CacheDocument :=
  { version := "1.0", last_updated := "2026-10-12T07:00:00",
    activities := [samplePush, sampleCommit],
    statistics := calculate_statistics [samplePush, sampleCommit] }

/-- A successful `save_activity` call environment recording `sampleCommit`. -/
def okCommitOp : SaveOp :=
  { outcome := .assigns 1, cache_fault := none, data := sampleCommit,
    stamp := "2026-10-12T06:00:01" }

/-- A successful `save_activity` call environment recording `samplePush`. -/
def okPushOp : SaveOp :=
  { outcome := .assigns 2, cache_fault := none, data := samplePush,
    stamp := "2026-10-12T06:30:01" }

/-! Helper lemmas about the embedded operations. -/

/-- Nothing is lexicographically below the empty character list. -/
theorem charListLt_nil_right (x : List Char) : charListLt x [] = false := by
  cases x <;> rfl

/-- Strict lexicographic order is asymmetric. -/
theorem charListLt_asymm (x y : List Char) (h : charListLt x y = true) :
    charListLt y x = false := by
  induction x generalizing y with
  | nil =>
    cases y with
    | nil => simp [charListLt] at h
    | cons b bs => exact charListLt_nil_right _
  | cons a as ih =>
    cases y with
    | nil => simp [charListLt] at h
    | cons b bs =>
      simp only [charListLt] at h ⊢
      by_cases hab : a.toNat < b.toNat
      · rw [if_neg (show ¬ b.toNat < a.toNat by omega), if_pos hab]
      · by_cases hba : b.toNat < a.toNat
        · rw [if_neg hab, if_pos hba] at h
          cases h
        · rw [if_neg hab, if_neg hba] at h
          rw [if_neg hba, if_neg hab]
          exact ih bs h

/-- Non-strict lexicographic order (the negation of `charListLt`) is
transitive. -/
theorem charListLt_false_trans (x y z : List Char)
    (hxy : charListLt x y = false) (hyz : charListLt y z = false) :
    charListLt x z = false := by
  induction x generalizing y z with
  | nil =>
    cases z with
    | nil => exact charListLt_nil_right _
    | cons c cs =>
      cases y with
      | nil => simp [charListLt] at hyz
      | cons b bs => simp [charListLt] at hxy
  | cons a as ih =>
    cases z with
    | nil => exact charListLt_nil_right _
    | cons c cs =>
      cases y with
      | nil => simp [charListLt] at hyz
      | cons b bs =>
        simp only [charListLt] at hxy hyz ⊢
        by_cases hab : a.toNat < b.toNat
        · rw [if_pos hab] at hxy; simp at hxy
        · by_cases hbc : b.toNat < c.toNat
          · rw [if_pos hbc] at hyz; simp at hyz
          · rw [if_neg (by omega)]
            by_cases hca : c.toNat < a.toNat
            · rw [if_pos hca]
            · rw [if_neg hca]
              have hba : ¬ b.toNat < a.toNat := by omega
              have hcb : ¬ c.toNat < b.toNat := by omega
              exact ih bs cs (by simpa [if_neg hab, if_neg hba] using hxy)
                (by simpa [if_neg hbc, if_neg hcb] using hyz)

/-- Inserting into the sorted list yields a permutation of consing. -/
theorem insertTsDesc_perm (a : Activity) (l : List Activity) :
    (insertTsDesc a l).Perm (a :: l) := by
  induction l with
  | nil => exact List.Perm.refl _
  | cons b bs ih =>
    simp only [insertTsDesc]
    split
    · exact (ih.cons b).trans (List.Perm.swap a b bs)
    · exact List.Perm.refl _

/-- The timestamp sort is a permutation of its input. -/
theorem sortTsDesc_perm (l : List Activity) : (sortTsDesc l).Perm l := by
  induction l with
  | nil => exact List.Perm.refl _
  | cons a rest ih => exact (insertTsDesc_perm a (sortTsDesc rest)).trans (ih.cons a)

/-- Insertion preserves descending timestamp order. -/
theorem insertTsDesc_ordered (a : Activity) (l : List Activity)
    (h : tsDescOrdered l) : tsDescOrdered (insertTsDesc a l) := by
  induction l with
  | nil => simp [tsDescOrdered, insertTsDesc]
  | cons b bs ih =>
    rw [tsDescOrdered, List.pairwise_cons] at h
    obtain ⟨hb, hbs⟩ := h
    simp only [insertTsDesc]
    split
    · next hlt =>
      rw [tsDescOrdered, List.pairwise_cons]
      refine ⟨fun x hx => ?_, ih hbs⟩
      rcases List.mem_cons.mp ((insertTsDesc_perm a bs).mem_iff.mp hx) with hxa | hxbs
      · subst hxa
        exact charListLt_asymm _ _ hlt
      · exact hb x hxbs
    · next hnlt =>
      have hab : sqliteStrLt a.timestamp b.timestamp = false := by
        simpa using hnlt
      rw [tsDescOrdered, List.pairwise_cons]
      refine ⟨fun x hx => ?_, List.pairwise_cons.mpr ⟨hb, hbs⟩⟩
      rcases List.mem_cons.mp hx with hxb | hxbs
      · subst hxb
        exact hab
      · exact charListLt_false_trans _ _ _ hab (hb x hxbs)

/-- The timestamp sort sorts by timestamp descending. -/
theorem sortTsDesc_ordered (l : List Activity) : tsDescOrdered (sortTsDesc l) := by
  induction l with
  | nil => simp [tsDescOrdered, sortTsDesc]
  | cons a rest ih => exact insertTsDesc_ordered a (sortTsDesc rest) ih

/-- The conditional truncation in the incremental updater always equals a
plain 1000-prefix. -/
theorem update_json_cache_activities (d : CacheDocument) (a : Activity) (s : String) :
    (update_json_cache d a s).activities = (a :: d.activities).take 1000 := by
  by_cases h : (a :: d.activities).length > 1000
  · simp [update_json_cache, h]
  · have hle : (a :: d.activities).length ≤ 1000 := by omega
    simp [update_json_cache, h, List.take_of_length_le hle]

/-- Prefix-taking absorbs an inner prefix-taking on the appended tail. -/
theorem take_append_take (n : Nat) (xs ys : List Activity) :
    List.take n (xs ++ List.take n ys) = List.take n (xs ++ ys) := by
  rw [List.take_append_eq_append_take, List.take_append_eq_append_take, List.take_take]
  have h2 : (n - xs.length) ⊓ n = n - xs.length :=
    inf_eq_left.mpr (Nat.sub_le n xs.length)
  rw [h2]

/-- A single `save_activity` call, whatever its insert outcome and whatever
fault strikes the cache update, leaves the file in a state whose read view
holds at most 1000 activities, provided the prior state's read view did. -/
theorem save_activity_preserves_cap (outcome : InsertOutcome)
    (fault : Option CacheUpdateFault) (prior : CacheFile) (a : Activity) (stamp : String)
    (h : ∀ now : String, (read_json prior now).activities.length ≤ 1000) :
    ∀ now : String,
      (read_json (save_activity outcome fault prior a stamp).2 now).activities.length
        ≤ 1000 := by
  intro now
  cases outcome with
  | raises => exact h now
  | assigns id =>
    by_cases hid : id ≤ 0
    · simp only [save_activity, if_pos hid]
      exact h now
    · simp only [save_activity, if_neg hid]
      cases fault with
      | none =>
        simp only [update_json_cache_file, read_json,
          update_json_cache_activities]
        exact List.length_take_le 1000 _
      | some f =>
        cases f with
        | beforeWrite => exact h now
        | duringWrite => simp [update_json_cache_file, read_json, init_json_data]

/-- After any sequence of `save_activity` calls the file's read view holds at
most 1000 activities, provided the starting state's read view did. -/
theorem runSaves_preserves_cap (ops : List SaveOp) :
    ∀ file : CacheFile, (∀ now : String, (read_json file now).activities.length ≤ 1000) →
      ∀ now : String, (read_json (runSaves file ops) now).activities.length ≤ 1000 := by
  induction ops with
  | nil => intro file h now; exact h now
  | cons op ops ih =>
    intro file h now
    exact ih _ (save_activity_preserves_cap op.outcome op.cache_fault file op.data op.stamp h)
      now

/-- Over successful, fault-free calls starting from a parseable document, the
file stays parseable and its activities are the 1000-bounded prefix of the
recorded activities in reverse call order, followed by what was there before. -/
theorem runSaves_activities_eq (ops : List SaveOp) :
    ∀ doc : CacheDocument,
      (∀ op ∈ ops, opSucceeds op ∧ op.cache_fault = none) →
      doc.activities.length ≤ 1000 →
      ∀ now : String,
        (read_json (runSaves (.parseable doc) ops) now).activities =
          ((ops.map recordedOf).reverse ++ doc.activities).take 1000 := by
  induction ops with
  | nil =>
    intro doc _ hlen now
    simpa [runSaves, read_json] using (List.take_of_length_le hlen).symm
  | cons op ops ih =>
    intro doc h hlen now
    obtain ⟨⟨id, hout, hid⟩, hfault⟩ := h op (List.mem_cons_self op ops)
    have hstep : (save_activity op.outcome op.cache_fault (.parseable doc) op.data op.stamp).2 =
        .parseable (update_json_cache doc { op.data with id := id } op.stamp) := by
      rw [hout, hfault]
      simp [save_activity, show ¬ id ≤ 0 by omega, update_json_cache_file, read_json]
    have hrec : recordedOf op = { op.data with id := id } := by
      simp [recordedOf, hout]
    have hacts : (update_json_cache doc { op.data with id := id } op.stamp).activities =
        ({ op.data with id := id } :: doc.activities).take 1000 :=
      update_json_cache_activities doc _ op.stamp
    have hlen2 : (update_json_cache doc { op.data with id := id } op.stamp).activities.length
        ≤ 1000 := by
      rw [hacts]; exact List.length_take_le 1000 _
    calc (read_json (runSaves (.parseable doc) (op :: ops)) now).activities
      = (read_json
          (runSaves (.parseable (update_json_cache doc { op.data with id := id } op.stamp)) ops)
          now).activities := by
          rw [runSaves, hstep]
    _ = ((ops.map recordedOf).reverse ++
          (update_json_cache doc { op.data with id := id } op.stamp).activities).take 1000 :=
          ih _ (fun o ho => h o (List.mem_cons_of_mem op ho)) hlen2 now
    _ = ((ops.map recordedOf).reverse ++
          ({ op.data with id := id } :: doc.activities).take 1000).take 1000 := by rw [hacts]
    _ = ((ops.map recordedOf).reverse ++
          ({ op.data with id := id } :: doc.activities)).take 1000 :=
          take_append_take 1000 _ _
    _ = (((op :: ops).map recordedOf).reverse ++ doc.activities).take 1000 := by
          rw [List.map_cons, List.reverse_cons, hrec, List.append_assoc]
          rfl

/-- The rebuilt activities list of a reconciliation cycle has exactly one
entry per Ledger row. -/
theorem sync_activities_length (db : LedgerDB) (stamp : String) :
    (sync_from_db_to_json db stamp).activities.length = db.rows.length :=
  (sortTsDesc_perm db.rows).length_eq

/-! Claim theorems. -/

/-- C1 (counterexample): with 1001 records in the Ledger Store, one
reconciliation cycle rebuilds a Cache Document holding all 1001 activities,
so the rebuilt activities list is not bounded to the cap N=1000. -/
theorem sync_rebuild_exceeds_cap_cex :
    (sync_from_db_to_json bigLedger "2026-10-12T08:00:00").activities.length = 1001 ∧
    ¬ (sync_from_db_to_json bigLedger "2026-10-12T08:00:00").activities.length ≤ 1000 := by
  have h : (sync_from_db_to_json bigLedger "2026-10-12T08:00:00").activities.length
      = bigLedger.rows.length := sync_activities_length bigLedger "2026-10-12T08:00:00"
  have h2 : bigLedger.rows.length = 1001 := by
    rw [show bigLedger.rows = List.replicate 1001 sampleCommit from rfl,
        List.length_replicate]
  exact ⟨by rw [h, h2], by rw [h, h2]; omega⟩

/-- C1 (amended): one reconciliation cycle rebuilds the Cache Document with
`activities` equal to the entire Ledger record set — a permutation of the
store's rows, ordered by timestamp descending — with no cap applied, hence
exactly as many entries as the store has rows. -/
theorem sync_rebuilds_full_uncapped_ledger (db : LedgerDB) (stamp : String) :
    ((sync_from_db_to_json db stamp).activities).Perm db.rows ∧
    (sync_from_db_to_json db stamp).activities.length = db.rows.length ∧
    tsDescOrdered (sync_from_db_to_json db stamp).activities :=
  ⟨sortTsDesc_perm db.rows, (sortTsDesc_perm db.rows).length_eq, sortTsDesc_ordered db.rows⟩

/-- C2: after one reconciliation cycle, whatever the prior Cache Document,
the rebuilt statistics' total_commits and total_pushes equal the number of
commit resp. push records in the Ledger Store. -/
theorem sync_statistics_equal_ledger_totals (db : LedgerDB) (prior : CacheDocument)
    (stamp : String) :
    (run_sync db prior stamp).statistics.total_commits
      = db.rows.countP (fun a => a.activity_type == "commit") ∧
    (run_sync db prior stamp).statistics.total_pushes
      = db.rows.countP (fun a => a.activity_type == "push") :=
  ⟨(sortTsDesc_perm db.rows).countP_eq _, (sortTsDesc_perm db.rows).countP_eq _⟩

/-- C3: if the Ledger insert raises, or returns a non-positive id,
`save_activity` fails (returns -1) and the Cache Document file is left
unchanged, whatever fault environment the cache layer is in: no incremental
cache update is performed. -/
theorem save_activity_insert_failure_no_cache_write (outcome : InsertOutcome)
    (fault : Option CacheUpdateFault) (prior : CacheFile) (a : Activity) (stamp : String)
    (h : outcome = .raises ∨ ∃ id : Int, outcome = .assigns id ∧ id ≤ 0) :
    save_activity outcome fault prior a stamp = (-1, prior) := by
  rcases h with h | ⟨id, h, hid⟩
  · rw [h]; rfl
  · rw [h]; simp [save_activity, hid]

/-- C3 witness: a raising insert with a concrete prior document. -/
theorem save_activity_insert_failure_no_cache_write_witness :
    save_activity .raises none (.parseable (init_json_data "2026-10-12T05:00:00")) sampleCommit
      "2026-10-12T06:00:01" = (-1, .parseable (init_json_data "2026-10-12T05:00:00")) :=
  save_activity_insert_failure_no_cache_write _ _ _ _ _ (Or.inl rfl)

/-- C4 (counterexample): with the insert succeeding (id 5) and the incremental
cache update failing — whether before the file write (lock timeout, read
fault) or during it (torn write) — `save_activity` returns exactly the same
caller-visible return value (the bare id 5) as the non-failing call: no
`CacheSyncWarning` or any other failure indication is surfaced to the caller. -/
theorem save_activity_cache_failure_not_surfaced_cex :
    (save_activity (.assigns 5) (some .beforeWrite)
        (.parseable (init_json_data "2026-10-12T05:00:00")) sampleCommit
        "2026-10-12T06:00:01").1
      = (save_activity (.assigns 5) none
        (.parseable (init_json_data "2026-10-12T05:00:00")) sampleCommit
        "2026-10-12T06:00:01").1 ∧
    (save_activity (.assigns 5) (some .duringWrite)
        (.parseable (init_json_data "2026-10-12T05:00:00")) sampleCommit
        "2026-10-12T06:00:01").1
      = (save_activity (.assigns 5) none
        (.parseable (init_json_data "2026-10-12T05:00:00")) sampleCommit
        "2026-10-12T06:00:01").1 ∧
    (save_activity (.assigns 5) (some .beforeWrite)
        (.parseable (init_json_data "2026-10-12T05:00:00")) sampleCommit
        "2026-10-12T06:00:01").1 = 5 :=
  ⟨rfl, rfl, rfl⟩

/-- C4 (amended): if the Ledger insert succeeds with a positive id and the
incremental cache update fails, `save_activity` still returns that id; the
failure is only printed inside `_update_json_cache` and is not surfaced to
the caller in any form.  The file's fate depends on where the fault struck: a
failure before `_write_json` opens the file (lock timeout, read fault) leaves
the Cache Document unchanged, while a fault during the write leaves the file
truncated/torn, since `open(json_path, 'w')` truncates before `json.dump`
runs. -/
theorem save_activity_cache_failure_returns_id_silently (id : Int)
    (prior : CacheFile) (a : Activity) (stamp : String) (fault : CacheUpdateFault)
    (h : 0 < id) :
    (save_activity (.assigns id) (some fault) prior a stamp).1 = id ∧
    (fault = .beforeWrite →
      (save_activity (.assigns id) (some fault) prior a stamp).2 = prior) ∧
    (fault = .duringWrite →
      (save_activity (.assigns id) (some fault) prior a stamp).2 = .corrupt) := by
  refine ⟨?_, ?_, ?_⟩
  · simp [save_activity, show ¬ id ≤ 0 by omega]
  · intro hf
    subst hf
    simp [save_activity, show ¬ id ≤ 0 by omega, update_json_cache_file]
  · intro hf
    subst hf
    simp [save_activity, show ¬ id ≤ 0 by omega, update_json_cache_file]

/-- C4 witness: id 7 with a concrete prior document, in both fault modes. -/
theorem save_activity_cache_failure_returns_id_silently_witness :
    (save_activity (.assigns 7) (some .beforeWrite) (.parseable twoActivityDoc) sampleCommit
        "2026-10-12T09:00:00").1 = 7 ∧
    (save_activity (.assigns 7) (some .beforeWrite) (.parseable twoActivityDoc) sampleCommit
        "2026-10-12T09:00:00").2 = .parseable twoActivityDoc ∧
    (save_activity (.assigns 7) (some .duringWrite) (.parseable twoActivityDoc) sampleCommit
        "2026-10-12T09:00:00").2 = .corrupt :=
  ⟨(save_activity_cache_failure_returns_id_silently 7 _ _ _ .beforeWrite (by omega)).1,
   (save_activity_cache_failure_returns_id_silently 7 _ _ _ .beforeWrite (by omega)).2.1 rfl,
   (save_activity_cache_failure_returns_id_silently 7 _ _ _ .duringWrite (by omega)).2.2 rfl⟩

/-- C5: starting from the initial empty Cache Document, after any sequence of
`save_activity` calls — faults included — the resulting Cache Document (as
every reader sees it through `_read_json`) holds at most 1000 activities;
and over successful, fault-free calls the stored activities are exactly the
most recent recorded activities in reverse insertion order, truncated to the
cap of 1000 (each new record is prepended, the oldest-inserted beyond the cap
are dropped). -/
theorem record_activity_cap_and_retention :
    (∀ (stamp0 now : String) (ops : List SaveOp),
      ((read_json (runSaves (.parseable (init_json_data stamp0)) ops) now).activities).length
        ≤ 1000) ∧
    (∀ (stamp0 now : String) (ops : List SaveOp),
      (∀ op ∈ ops, opSucceeds op ∧ op.cache_fault = none) →
      (read_json (runSaves (.parseable (init_json_data stamp0)) ops) now).activities
        = ((ops.map recordedOf).reverse).take 1000) := by
  constructor
  · intro stamp0 now ops
    exact runSaves_preserves_cap ops _ (fun n => by simp [read_json, init_json_data]) now
  · intro stamp0 now ops h
    have he := runSaves_activities_eq ops (init_json_data stamp0) h
      (by simp [init_json_data]) now
    simpa [init_json_data] using he

/-- C5 witness: two successful recording calls. -/
theorem record_activity_cap_and_retention_witness :
    (read_json (runSaves (.parseable (init_json_data "2026-10-12T05:00:00"))
        [okCommitOp, okPushOp]) "2026-10-12T07:00:00").activities
      = (([okCommitOp, okPushOp].map recordedOf).reverse).take 1000 ∧
    ((read_json (runSaves (.parseable (init_json_data "2026-10-12T05:00:00"))
        [okCommitOp, okPushOp]) "2026-10-12T07:00:00").activities).length ≤ 1000 :=
  ⟨record_activity_cap_and_retention.2 "2026-10-12T05:00:00" "2026-10-12T07:00:00"
      [okCommitOp, okPushOp]
      (by
        intro op hop
        simp only [List.mem_cons, List.not_mem_nil, or_false] at hop
        rcases hop with rfl | rfl
        · exact ⟨⟨1, rfl, by omega⟩, rfl⟩
        · exact ⟨⟨2, rfl, by omega⟩, rfl⟩),
   record_activity_cap_and_retention.1 "2026-10-12T05:00:00" "2026-10-12T07:00:00"
      [okCommitOp, okPushOp]⟩

/-- C6: both Cache Document writers — the incremental update and the full
rebuild — leave `statistics` equal to the deterministic function
`calculate_statistics` applied to the stored `activities`. -/
theorem cache_statistics_deterministic_in_activities (prior : CacheDocument)
    (a : Activity) (stamp : String) (db : LedgerDB) (stamp2 : String) :
    (update_json_cache prior a stamp).statistics
      = calculate_statistics (update_json_cache prior a stamp).activities ∧
    (sync_from_db_to_json db stamp2).statistics
      = calculate_statistics (sync_from_db_to_json db stamp2).activities :=
  ⟨rfl, rfl⟩

/-- C7: running the reconciliation cycle twice in a row with no intervening
Ledger writes yields identical statistics both times, whatever timestamps the
two cycles stamp into the document. -/
theorem reconciliation_idempotent_statistics (db : LedgerDB) (prior : CacheDocument)
    (s1 s2 : String) :
    (run_sync db (run_sync db prior s1) s2).statistics
      = (run_sync db prior s1).statistics :=
  rfl

/-- C8 (code at the failing input): a commit whose caller-supplied ISO-8601
timestamp 2026-10-12T06:00:00 is one hour in the past is inserted, then
purged with days=0 at 2026-10-12 07:00:00 (the value of
datetime('now', '-0 days')).  The timestamp is not in the future, yet SQLite's
bytewise comparison places the 'T'-separated timestamp above the
space-separated cutoff, so the DELETE removes nothing: it reports 0 removed
and the record — for that very repo — remains in the Ledger Store. -/
theorem purge_zero_days_misses_same_day_record :
    isoNotAfterSqlite sampleCommit.timestamp "2026-10-12 07:00:00" = true ∧
    (delete_old_activities (insert_activity { rows := [], next_rowid := 1 } sampleCommit).1
        "2026-10-12 07:00:00").2 = 0 ∧
    (((delete_old_activities (insert_activity { rows := [], next_rowid := 1 } sampleCommit).1
        "2026-10-12 07:00:00").1).rows).countP
        (fun a => a.repo_path == sampleCommit.repo_path) = 1 :=
  ⟨by decide, by decide, by decide⟩

/-- C9 (counterexample): the incremental update's event trace reads the
current document before the lock is acquired, so its read-modify-write
sequence does not occur entirely inside the lock. -/
theorem update_cache_rmw_outside_lock_cex :
    accessesUnderLock update_json_cache_events = false := by decide

/-- C9 (amended): both writers perform the write of the new document while
holding the lock — the full rebuild's entire cache-file access is inside the
lock — but the incremental update's read of the current document happens
before the lock is acquired, outside it. -/
theorem cache_write_locked_read_unlocked :
    writesUnderLock update_json_cache_events = true ∧
    accessesUnderLock sync_from_db_to_json_events = true ∧
    readsUnderLock update_json_cache_events = false := by decide

/-- C10: reading activities from the Cache Document with limit = 0 returns
the entire stored list (0 is falsy and treated like None); a positive limit
smaller than the list length returns the limit-prefix. -/
theorem read_activities_limit_zero_returns_all (doc : CacheDocument) :
    get_activities_from_json doc (some 0) = doc.activities ∧
    (∀ n : Int, 0 < n → n < (doc.activities.length : Int) →
      get_activities_from_json doc (some n) = doc.activities.take n.toNat) := by
  constructor
  · simp [get_activities_from_json]
  · intro n hn hlt
    have hne : n ≠ 0 := by omega
    simp [get_activities_from_json, pySliceTo, hne, hlt, hn.le]

/-- C10 witness: a two-activity document read with limit 0 and limit 1. -/
theorem read_activities_limit_zero_returns_all_witness :
    get_activities_from_json twoActivityDoc (some 0) = twoActivityDoc.activities ∧
    get_activities_from_json twoActivityDoc (some 1)
      = twoActivityDoc.activities.take (1 : Int).toNat :=
  ⟨(read_activities_limit_zero_returns_all twoActivityDoc).1,
   (read_activities_limit_zero_returns_all twoActivityDoc).2 1 (by omega) (by decide)⟩

end PeepGit
